import Mathlib

/-!
Verification development for the fourget repository.

This file gives a shallow embedding, in Lean 4, of the core logic of the
fourget program: the work queue and its completion controller
(`src/fourget/queue.py`), the concrete work items and their helpers
(`src/fourget/__main__.py`), and the exception hierarchy
(`src/fourget/exception.py`).  File contents are modelled as lists of
bytes (`List Nat`), the MD5 function as an opaque parameter
(`List Nat → List Nat`), the filesystem as explicit maps, and the
asynchronous completion race of `Queue.complete` as a function of the
results of the tasks that finished first.  All definitions are translated
from the Python source; theorems about them settle the claims of the
specification.
-/

set_option autoImplicit false

namespace Fourget

/-! ### Byte streams read in bounded chunks

`chunksOf n l` models the successive results of `f.read(n)` on a file whose
whole content is `l`: each call returns up to `n` bytes, and the loop
`while data := f.read(n)` stops at the first empty result.  In particular
`f.read(0)` immediately returns the empty bytes object, so for `n = 0` the
loop body never runs and the list of chunks is empty.
-/

def chunksOf {α : Type} (n : Nat) (l : List α) : List (List α) :=
  match n, l with
  | _, [] => []
  | 0, _ => []
  | n + 1, x :: xs =>
      ((x :: xs).take (n + 1)) :: chunksOf (n + 1) ((x :: xs).drop (n + 1))
termination_by l.length
decreasing_by
  simp only [List.length_drop, List.length_cons]
  omega

theorem chunksOf_nil {α : Type} (n : Nat) : chunksOf n ([] : List α) = [] := by
  rw [chunksOf.eq_def]
  cases n <;> rfl

theorem chunksOf_zero {α : Type} (l : List α) : chunksOf 0 l = [] := by
  rw [chunksOf.eq_def]
  cases l <;> rfl

/-- Every chunk produced by `chunksOf n` has length at most `n`. -/
theorem chunksOf_length_le {α : Type} (n : Nat) (l : List α) :
    ∀ c ∈ chunksOf n l, c.length ≤ n := by
  induction n, l using chunksOf.induct with
  | case1 n => intro c hc; rw [chunksOf_nil] at hc; simp at hc
  | case2 l _ => intro c hc; rw [chunksOf_zero] at hc; simp at hc
  | case3 n x xs ih =>
    intro c hc
    rw [chunksOf] at hc
    rcases List.mem_cons.mp hc with h1 | h2
    · subst h1
      simp only [List.length_take]
      exact Nat.min_le_left (n + 1) (x :: xs).length
    · exact ih c h2

/-- Concatenating the chunks recovers the whole content, provided the chunk
size is at least one. -/
theorem chunksOf_flatten {α : Type} (n : Nat) (hn : 1 ≤ n) (l : List α) :
    (chunksOf n l).flatten = l := by
  induction n, l using chunksOf.induct with
  | case1 n => rw [chunksOf_nil]; rfl
  | case2 l h => omega
  | case3 n x xs ih =>
    rw [chunksOf]
    simp only [List.flatten_cons, ih (by omega)]
    exact List.take_append_drop (n + 1) (x :: xs)

/-! ### Digest verifier: `md5_path` (src/fourget/__main__.py, lines 173–179)

The MD5 function itself is an opaque parameter `md5fn` from byte contents
to digests; `hashlib`'s incremental interface guarantees that the digest
obtained after a sequence of `update` calls is the digest of the
concatenation of the updated chunks.  The Python code reads the file in
chunks of at most `max_chunk_size` bytes and feeds each to `update`.
-/

def md5_path (md5fn : List Nat → List Nat) (content : List Nat)
    (max_chunk_size : Nat) : List Nat :=
  md5fn ((chunksOf max_chunk_size content).foldl (fun acc c => acc ++ c) [])

theorem foldl_append_eq_join {α : Type} (a : List α) (L : List (List α)) :
    L.foldl (fun acc c => acc ++ c) a = a ++ L.flatten := by
  induction L generalizing a with
  | nil => simp [List.flatten]
  | cons c cs ih => simp [List.foldl_cons, ih, List.flatten, List.append_assoc]

theorem md5_path_foldl_eq_join (md5fn : List Nat → List Nat) (content : List Nat)
    (max_chunk_size : Nat) :
    md5_path md5fn content max_chunk_size =
      md5fn (chunksOf max_chunk_size content).flatten := by
  unfold md5_path
  rw [foldl_append_eq_join]
  rfl

/-! ### Filename sanitization (src/fourget/__main__.py, lines 193–203) -/

/-- The set of characters blocked in filenames: the control characters
`chr(0)` through `chr(31)` together with `< > : " / \ | ? *`. -/
def BLOCKED_FILE_NAME_CHARS (c : Char) : Bool :=
  c.toNat < 32 || c == '<' || c == '>' || c == ':' || c == '"' || c == '/' ||
    c == '\\' || c == '|' || c == '?' || c == '*'

/-- `file_name_sanitize` keeps exactly the characters not in
`BLOCKED_FILE_NAME_CHARS`, in order. -/
def file_name_sanitize (name : List Char) : List Char :=
  name.filter (fun c => !BLOCKED_FILE_NAME_CHARS c)

/-! ### Data model (src/fourget/__main__.py and src/fourget/exception.py) -/

/-- `StopReason` (src/fourget/queue.py): a reason message for stopping the
queue. -/
structure StopReason where
  reason : String
deriving DecidableEq, Repr

/-- Exceptions that the embedded fragments can raise.  `threadNotFound`
carries the thread URL, as `ThreadNotFoundException` does;
`malformedThreadURL` corresponds to `MalformedThreadURLException`;
`indexError` models Python's `IndexError` (e.g. `posts[0]` on an empty
list). -/
inductive PyExc where
  | threadNotFound (url : String)
  | malformedThreadURL (url : String)
  | indexError
deriving DecidableEq, Repr

/-- The message attached to each exception, from src/fourget/exception.py. -/
def PyExc.msg : PyExc → String
  | .threadNotFound url => url ++ " cannot be found."
  | .malformedThreadURL url =>
      url ++ " does not look like a valid 4chan thread URL. Valid URLs take" ++
        " the form \x22https://boards.4channel.org/<board>/thread/<post_id>\x22." ++
        " The \x224chan.org\x22 domain may also be used."
  | .indexError => "list index out of range"

/-- `Thread` data class: a board name and a numeric thread id. -/
structure Thread where
  board : String
  thread_id : Int
deriving DecidableEq, Repr

def Thread.api_endpoint_url (t : Thread) : String :=
  "https://a.4cdn.org/" ++ t.board ++ "/thread/" ++ toString t.thread_id ++ ".json"

def Thread.to_url (t : Thread) : String :=
  "https://boards.4channel.org/" ++ t.board ++ "/thread/" ++ toString t.thread_id

/-- `Post.File`: an attachment of a post.  `md5` is the expected digest of
the attachment's bytes, as advertised by the API. -/
structure PostFile where
  timestamp : Int
  extension : String
  size : Nat
  md5 : List Nat
  board : String
  poster_stem : String
deriving DecidableEq, Repr

def PostFile.name (f : PostFile) : String :=
  toString f.timestamp ++ f.extension

def PostFile.url (f : PostFile) : String :=
  "https://i.4cdn.org/" ++ f.board ++ "/" ++ f.name

/-- `Post`: one 4chan post; `subject_text`, `comment` and `file` are
optional. -/
structure Post where
  board : String
  post_id : Int
  subject_text : Option String
  comment : Option String
  file : Option PostFile
deriving DecidableEq, Repr

/-- Python truthiness of an optional string: `None` and the empty string
are falsy. -/
def strTruthy : Option String → Bool
  | none => false
  | some s => !s.isEmpty

/-- `Post.description`: first 80 characters of the subject if present and
non-empty, else of the comment, else nothing. -/
def Post.description (p : Post) : Option String :=
  if strTruthy p.subject_text then some ((p.subject_text.getD "").take 80)
  else if strTruthy p.comment then some ((p.comment.getD "").take 80)
  else none

/-- The work items of the program.  `jsonSave` carries the (opaque) thread
JSON body; `mediaDownload` carries the attachment and the thread
directory. -/
inductive Item where
  | threadRead (thread : Thread) (root_output_dir : String)
  | mediaDownload (post_file : PostFile) (thread_dir : String)
  | jsonSave (thread_path : String) (json_object : String)
deriving DecidableEq, Repr

/-! ### `ThreadReadItem.process` (src/fourget/__main__.py, lines 251–300)

The HTTP client is modelled by the response it returns: a status code, the
raw JSON body (opaque) and the list of posts parsed from it.  The result
records the items enqueued (in the order of the `enqueue` calls), the
directory created by `mkdir` if any, and the value returned by `process`
(`None`, i.e. no stop reason).
-/

structure ThreadReadResult where
  enqueued : List Item
  created_dir : Option String
  stop : Option StopReason
deriving DecidableEq, Repr

def threadReadProcess (thread : Thread) (root_output_dir : String)
    (status : Nat) (json_body : String) (posts : List Post)
    (dir_exists : Bool) : Except PyExc ThreadReadResult :=
  if status == 404 then
    .error (.threadNotFound thread.to_url)
  else
    match posts with
    | [] => .error .indexError
    | orig_post :: _ =>
      let trailer :=
        match orig_post.description with
        | none => ""
        | some d => " - " ++ d
      let output_dir_name :=
        String.mk (file_name_sanitize
          ("4chan - " ++ thread.board ++ " - " ++ toString orig_post.post_id ++
            trailer).toList)
      let thread_dir := root_output_dir ++ "/" ++ output_dir_name
      .ok
        { enqueued :=
            Item.jsonSave thread_dir json_body ::
              (posts.filterMap Post.file).map
                (fun f => Item.mediaDownload f thread_dir)
          created_dir := if dir_exists then none else some thread_dir
          stop := none }

/-! ### `MediaDownloadItem.process` (src/fourget/__main__.py, lines 205–239)

The filesystem for media files maps a path to the byte content of the file
at that path, if it exists.  The network is modelled by `remote`, the byte
content served at each URL.  `download_file` (lines 182–190) streams that
content in chunks of at most `max_chunk_size` bytes, writing each chunk and
yielding its length.
-/

def download_file (remote : String → List Nat) (url : String)
    (max_chunk_size : Nat) : List (List Nat) :=
  chunksOf max_chunk_size (remote url)

/-- The local file name of an attachment:
`file_name_sanitize(f"{timestamp} - {poster_stem}") + extension`. -/
def media_local_file_name (pf : PostFile) : String :=
  String.mk (file_name_sanitize
    (toString pf.timestamp ++ " - " ++ pf.poster_stem).toList) ++ pf.extension

/-- `output_path.exists() and await md5_path(output_path) == post_file.md5`. -/
def existing_matches (md5fn : List Nat → List Nat)
    (fs : String → Option (List Nat)) (path : String) (expected : List Nat) :
    Bool :=
  match fs path with
  | some content => decide (md5_path md5fn content (2 ^ 20) = expected)
  | none => false

structure MediaResult where
  fs : String → Option (List Nat)
  reported : List Nat
  transfers : Nat

def mediaDownloadProcess (md5fn : List Nat → List Nat)
    (remote : String → List Nat) (fs : String → Option (List Nat))
    (pf : PostFile) (thread_dir : String) : MediaResult :=
  let output_path := thread_dir ++ "/" ++ media_local_file_name pf
  if existing_matches md5fn fs output_path pf.md5 then
    { fs := fs, reported := [pf.size], transfers := 0 }
  else
    let chunks := download_file remote pf.url (2 ^ 20)
    { fs := fun p => if p = output_path then some chunks.flatten else fs p
      reported := chunks.map List.length
      transfers := 1 }

/-! ### `JSONSaveItem.process` (src/fourget/__main__.py, lines 303–319)

The filesystem for text files is a list of existing directories plus a map
from paths to file contents.  `open("w")` succeeds exactly when the parent
directory of the target path exists, and truncates/creates the file;
otherwise Python raises `FileNotFoundError`.  `json.dumps` is an opaque
serializer parameter.
-/

def jsonSaveProcess (json_dumps : String → String) (dirs : List String)
    (files : List (String × String)) (thread_path : String)
    (json_object : String) :
    Except String (List String × List (String × String)) :=
  let json_path := thread_path ++ "/thread.json"
  if thread_path ∈ dirs then
    .ok (dirs,
      (json_path, json_dumps json_object) ::
        files.filter (fun kv => kv.1 ≠ json_path))
  else
    .error "FileNotFoundError"

/-! ### The worker loop `worker_task` (src/fourget/queue.py, lines 16–26)

A worker repeatedly dequeues an item and awaits `item.process`.  We model
one worker's life by the sequence of outcomes of the `process` calls on the
items it dequeues, in order: each call either returns normally (with an
optional `StopReason`) or raises.  `worker_task` returns, for each
dequeued item, whether `queue.task_done()` was called for it, together
with how the worker ended: returning a stop reason, propagating an
exception, or suspended on `queue.get()` waiting for more items.
-/

inductive ProcResult where
  | ok (sr : Option StopReason)
  | exc (e : String)
deriving DecidableEq, Repr

inductive WorkerEnd where
  | stopped (sr : StopReason)
  | failed (e : String)
  | awaitingMore
deriving DecidableEq, Repr

def worker_task : List ProcResult → List Bool × WorkerEnd
  | [] => ([], .awaitingMore)
  | .ok none :: rest =>
      let r := worker_task rest
      (true :: r.1, r.2)
  | .ok (some sr) :: _ => ([true], .stopped sr)
  | .exc e :: _ => ([false], .failed e)

/-! ### The completion controller `Queue.complete` (src/fourget/queue.py, lines 72–107)

`complete` first enqueues the initial items with `put_nowait`, raising
`ValueError` if the queue (of capacity `queue_maxsize`, unbounded when
`queue_maxsize <= 0`) cannot hold them.  It then spawns the joiner task
and `worker_count` worker tasks and awaits the first completion.  We model
the race by the results of the tasks in the `done` set (in the set's
iteration order) and the number of tasks still pending.  The done-phase
loop calls `task.result()` on each done task: the first stored exception
propagates out of `complete` immediately; otherwise every non-`None`
result is passed to `stop_reason_callback`.  Only when no done task
raised does `complete` reach the cancellation loop and the
`asyncio.gather(*pending, return_exceptions=True)` call, which collects
the pending tasks' errors as values and discards them.
-/

inductive TaskRes where
  | ok (sr : Option StopReason)
  | exc (e : String)
deriving DecidableEq, Repr

/-- The joiner task `all_items_processed` returns this fixed stop reason
when the queue drains. -/
def joinerResult : TaskRes :=
  .ok (some { reason := "All items processed" })

/-- The `for task in done` loop: callbacks made (in order) and the first
exception re-raised by `task.result()`, if any. -/
def runDonePhase : List TaskRes → List StopReason × Option String
  | [] => ([], none)
  | .ok none :: rest => runDonePhase rest
  | .ok (some sr) :: rest =>
      let r := runDonePhase rest
      (sr :: r.1, r.2)
  | .exc e :: _ => ([], some e)

/-- `asyncio.gather(..., return_exceptions=True)`: exceptions are returned
as values instead of being raised. -/
def gather_return_exceptions (errors : List String) : List String := errors

/-- Everything the caller of `complete` can observe: the synchronous
configuration error, the calls made to `stop_reason_callback`, the
exception propagating out of `complete`, and how many pending tasks were
cancelled and awaited. -/
structure CompleteObs where
  config_error : Option String
  callbacks : List StopReason
  raised : Option String
  cancelled_awaited : Nat
deriving DecidableEq, Repr

def complete (queue_maxsize : Int) (initial_count : Nat) (worker_count : Int)
    (done : List TaskRes) (pending_count : Nat)
    (shutdown_errors : List String) : CompleteObs :=
  if 0 < queue_maxsize ∧ queue_maxsize < (initial_count : Int) then
    { config_error := some "Queue must be sized at least as large as initial_items"
      callbacks := []
      raised := none
      cancelled_awaited := 0 }
  else
    let r := runDonePhase done
    match r.2 with
    | some e =>
        { config_error := none
          callbacks := r.1
          raised := some e
          cancelled_awaited := 0 }
    | none =>
        let _results := gather_return_exceptions shutdown_errors
        { config_error := none
          callbacks := r.1
          raised := none
          cancelled_awaited := pending_count }

/-! ### Keyword binding of the `process` call (worker_task, queue.py line 21)

`worker_task` invokes `await item.process(queue=queue)`.  Python binds a
call's keyword arguments against the callee's parameter names: a keyword
that matches no parameter, or a parameter left unbound, raises `TypeError`
before the function body runs.  The concrete items' `process` methods each
declare the single parameter `enqueue` (besides `self`), with no default
and no `**kwargs`.
-/

def pyKeywordBindOk (params kwargs : List String) : Bool :=
  kwargs.all (fun k => params.contains k) && params.all (fun p => kwargs.contains p)

def worker_process_call_kwargs : List String := ["queue"]

def threadReadItem_process_params : List String := ["enqueue"]

def mediaDownloadItem_process_params : List String := ["enqueue"]

def jsonSaveItem_process_params : List String := ["enqueue"]

inductive InvokeResult where
  | raisedTypeError
  | bodyRan
deriving DecidableEq, Repr

/-- The fate of `item.process(queue=queue)` for a callee with the given
parameter names: the body runs only if the keywords bind. -/
def worker_invoke (params : List String) : InvokeResult :=
  if pyKeywordBindOk params worker_process_call_kwargs then .bodyRan
  else .raisedTypeError

/-- Whether a `process` call returned normally (as opposed to raising). -/
def procReturnedNormally : ProcResult → Bool
  | .ok _ => true
  | .exc _ => false

/-! ## Theorems settling the claims -/

/-- C10: `file_name_sanitize` is idempotent, its output contains no blocked
character (control characters 0–31 or any of `< > : " / \ | ? *`), and its
output is exactly the subsequence of the input consisting of the
non-blocked characters in their original order (an order-preserving
sublist that keeps every occurrence of every non-blocked character). -/
theorem file_name_sanitize_props (name : List Char) :
    file_name_sanitize (file_name_sanitize name) = file_name_sanitize name ∧
    (∀ c ∈ file_name_sanitize name, BLOCKED_FILE_NAME_CHARS c = false) ∧
    List.Sublist (file_name_sanitize name) name ∧
    ∀ c : Char, BLOCKED_FILE_NAME_CHARS c = false →
      (file_name_sanitize name).count c = name.count c := by
  refine ⟨?_, ?_, ?_, ?_⟩
  · simp [file_name_sanitize, List.filter_filter]
  · intro c hc
    have h := (List.mem_filter.mp hc).2
    simpa using h
  · exact List.filter_sublist name
  · intro c hc
    rw [file_name_sanitize, List.count_filter]
    simp [hc]

/-- C10 witness: evaluation at the concrete name `a<b`. -/
theorem file_name_sanitize_props_witness :
    file_name_sanitize (file_name_sanitize ['a', '<', 'b']) =
      file_name_sanitize ['a', '<', 'b'] ∧
    (file_name_sanitize ['a', '<', 'b']).count 'a' =
      (['a', '<', 'b'] : List Char).count 'a' :=
  ⟨(file_name_sanitize_props ['a', '<', 'b']).1,
    (file_name_sanitize_props ['a', '<', 'b']).2.2.2 'a' (by decide)⟩

/-- C8: `md5_path` streams the file in chunks of at most `max_chunk_size`
bytes and, for every content and every chunk size at least 1, its result is
the digest of the whole content hashed at once — independent of the chunk
size. -/
theorem md5_path_chunk_independent (md5fn : List Nat → List Nat)
    (content : List Nat) (max_chunk_size : Nat) (h : 1 ≤ max_chunk_size) :
    md5_path md5fn content max_chunk_size = md5fn content ∧
    ∀ c ∈ chunksOf max_chunk_size content, c.length ≤ max_chunk_size := by
  constructor
  · rw [md5_path_foldl_eq_join, chunksOf_flatten _ h]
  · exact chunksOf_length_le _ _

/-- C8 witness: evaluation at content `[1, 2, 3]` with chunk size 2. -/
theorem md5_path_chunk_independent_witness :
    md5_path (fun l => l) [1, 2, 3] 2 = [1, 2, 3] ∧
    ∀ c ∈ chunksOf 2 [1, 2, 3], c.length ≤ 2 :=
  md5_path_chunk_independent (fun l => l) [1, 2, 3] 2 (by decide)

/-- C6: `worker_task` calls `item.process(queue=queue)` while every
concrete item variant declares its `process` parameter as `enqueue`, so
keyword binding fails and Python raises `TypeError` before the item's body
runs: no concrete item can be processed successfully by `worker_task`. -/
theorem worker_invoke_raises_for_all_variants :
    worker_invoke threadReadItem_process_params = .raisedTypeError ∧
    worker_invoke mediaDownloadItem_process_params = .raisedTypeError ∧
    worker_invoke jsonSaveItem_process_params = .raisedTypeError := by
  refine ⟨by decide, by decide, by decide⟩

/-- C3 (amended): on an HTTP 404 response, `ThreadReadItem.process` raises
`ThreadNotFoundException` carrying the thread's URL (message
`"<url> cannot be found."`) instead of returning a Stop Signal, so the
not-found condition surfaces through the completion race as a failure (the
CLI layer catches the `FourgetException` and maps it to exit status 1). -/
theorem threadReadProcess_404_raises (thread : Thread) (root : String)
    (body : String) (posts : List Post) (dir_exists : Bool) :
    threadReadProcess thread root 404 body posts dir_exists =
      .error (.threadNotFound thread.to_url) ∧
    (PyExc.threadNotFound thread.to_url).msg =
      thread.to_url ++ " cannot be found." := by
  constructor
  · simp [threadReadProcess]
  · rfl

/-- C3 counterexample: for thread g/76759434 with a 404 response, `process`
raises `ThreadNotFoundException` — there is no normal return at all, hence
no Stop Signal is returned. -/
theorem threadReadProcess_404_counterexample :
    threadReadProcess { board := "g", thread_id := 76759434 } "out" 404 "body" [] true =
      Except.error
        (PyExc.threadNotFound "https://boards.4channel.org/g/thread/76759434") ∧
    (threadReadProcess { board := "g", thread_id := 76759434 } "out" 404 "body" []
        true).toOption = none := by
  exact ⟨rfl, rfl⟩

/-- C9 (amended): `JSONSaveItem.process` writes the serialized payload to
`thread_path/"thread.json"` when the parent directory exists (leaving the
set of directories unchanged — it never creates directories), and errors
with `FileNotFoundError` when the parent directory is absent, which
surfaces as a failed run. -/
theorem jsonSaveProcess_spec (json_dumps : String → String)
    (dirs : List String) (files : List (String × String))
    (thread_path payload : String) :
    (thread_path ∈ dirs →
      jsonSaveProcess json_dumps dirs files thread_path payload =
        .ok (dirs,
          (thread_path ++ "/thread.json", json_dumps payload) ::
            files.filter (fun kv => kv.1 ≠ thread_path ++ "/thread.json"))) ∧
    (thread_path ∉ dirs →
      jsonSaveProcess json_dumps dirs files thread_path payload =
        .error "FileNotFoundError") := by
  constructor <;> intro h <;> simp [jsonSaveProcess, h]

/-- C9 witness: evaluation with the parent present and with it absent. -/
theorem jsonSaveProcess_spec_witness :
    jsonSaveProcess (fun s => s) ["d"] [] "d" "p" =
      .ok (["d"], [("d/thread.json", "p")]) ∧
    jsonSaveProcess (fun s => s) ["e"] [] "d" "p" = .error "FileNotFoundError" :=
  ⟨(jsonSaveProcess_spec (fun s => s) ["d"] [] "d" "p").1 (by simp),
    (jsonSaveProcess_spec (fun s => s) ["e"] [] "d" "p").2 (by simp)⟩

/-- C9 counterexample: with no directories present, `process` fails with
`FileNotFoundError` instead of creating the parent directory. -/
theorem jsonSaveProcess_absent_parent_counterexample :
    jsonSaveProcess (fun s => s) [] [] "d" "payload" =
      .error "FileNotFoundError" := rfl

/-- C2 (amended): for every dequeued item whose `process` returns normally,
the worker calls `task_done` exactly once before dequeuing again or
terminating; but when `process` raises, `task_done` is not called at all:
the exception propagates immediately and that dequeue is the worker's
last, ending it with a failure. -/
theorem worker_task_task_done_flags (results : List ProcResult) :
    (worker_task results).1 =
      (results.take (worker_task results).1.length).map procReturnedNormally ∧
    ∀ e rest, worker_task (.exc e :: rest) = ([false], .failed e) := by
  constructor
  · induction results with
    | nil => rfl
    | cons r rest ih =>
      match r with
      | .ok none =>
        simpa [worker_task, procReturnedNormally] using ih
      | .ok (some sr) => rfl
      | .exc e => rfl
  · intro e rest
    rfl

/-- C2 counterexample: a worker that dequeues a single item whose `process`
raises calls `task_done` zero times for that item, not once. -/
theorem worker_task_exc_skips_task_done :
    worker_task [.exc "boom"] = ([false], .failed "boom") := rfl

/-- At the implementation's chunk size `2 ^ 20`, the streamed digest is
the digest of the whole content. -/
theorem md5_path_default (md5fn : List Nat → List Nat) (c : List Nat) :
    md5_path md5fn c (2 ^ 20) = md5fn c := by
  rw [md5_path_foldl_eq_join, chunksOf_flatten _ (by norm_num)]

/-- C5: MediaFetch execution is idempotent and content-verified.  If the
destination file exists and its digest equals the item's expected digest,
execution performs zero transfers and reports the expected size as already
present (the filesystem is untouched).  If the destination is absent or
its digest mismatches, execution performs exactly one transfer, reports
each written chunk's length, leaves the destination holding the
transferred source bytes, and — the source's bytes hashing to the expected
digest, as the API advertises — the destination's digest afterwards equals
the expected digest. -/
theorem mediaDownloadProcess_idempotent (md5fn : List Nat → List Nat)
    (remote : String → List Nat) (fs : String → Option (List Nat))
    (pf : PostFile) (thread_dir : String) :
    (∀ c, fs (thread_dir ++ "/" ++ media_local_file_name pf) = some c →
      md5fn c = pf.md5 →
      mediaDownloadProcess md5fn remote fs pf thread_dir =
        { fs := fs, reported := [pf.size], transfers := 0 }) ∧
    ((fs (thread_dir ++ "/" ++ media_local_file_name pf) = none ∨
        (∃ c, fs (thread_dir ++ "/" ++ media_local_file_name pf) = some c ∧
          md5fn c ≠ pf.md5)) →
      (mediaDownloadProcess md5fn remote fs pf thread_dir).transfers = 1 ∧
      (mediaDownloadProcess md5fn remote fs pf thread_dir).reported =
        (chunksOf (2 ^ 20) (remote pf.url)).map List.length ∧
      (mediaDownloadProcess md5fn remote fs pf thread_dir).fs
          (thread_dir ++ "/" ++ media_local_file_name pf) =
        some (remote pf.url) ∧
      (md5fn (remote pf.url) = pf.md5 →
        ∀ dest,
          (mediaDownloadProcess md5fn remote fs pf thread_dir).fs
              (thread_dir ++ "/" ++ media_local_file_name pf) = some dest →
          md5_path md5fn dest (2 ^ 20) = pf.md5)) := by
  have hflat : (chunksOf 1048576 (remote pf.url)).flatten = remote pf.url :=
    chunksOf_flatten _ (by norm_num) _
  have hdef : ∀ x : List Nat, md5_path md5fn x 1048576 = md5fn x :=
    fun x => md5_path_default md5fn x
  constructor
  · intro c h1 h2
    have hm : existing_matches md5fn fs
        (thread_dir ++ "/" ++ media_local_file_name pf) pf.md5 = true := by
      unfold existing_matches
      rw [h1]
      simp [hdef, h2]
    simp [mediaDownloadProcess, hm]
  · intro h
    have hm : existing_matches md5fn fs
        (thread_dir ++ "/" ++ media_local_file_name pf) pf.md5 = false := by
      unfold existing_matches
      rcases h with h | ⟨c, h1, h2⟩
      · rw [h]
      · rw [h1]
        simp [hdef, h2]
    refine ⟨?_, ?_, ?_, ?_⟩
    · simp [mediaDownloadProcess, hm]
    · simp [mediaDownloadProcess, hm, download_file]
    · simp [mediaDownloadProcess, hm, download_file, hflat]
    · intro hrem dest hdest
      simp [mediaDownloadProcess, hm, download_file] at hdest
      rw [md5_path_default, ← hdest, hflat]
      exact hrem

/-- C5 witness: evaluation with a matching existing file (skip path) and
with an absent file (transfer path). -/
theorem mediaDownloadProcess_idempotent_witness :
    mediaDownloadProcess (fun l => l) (fun _ => [7]) (fun _ => some [7])
        { timestamp := 1, extension := ".png", size := 1, md5 := [7],
          board := "g", poster_stem := "x" } "t" =
      { fs := fun _ => some [7], reported := [1], transfers := 0 } ∧
    (mediaDownloadProcess (fun l => l) (fun _ => [7]) (fun _ => none)
        { timestamp := 1, extension := ".png", size := 1, md5 := [7],
          board := "g", poster_stem := "x" } "t").transfers = 1 :=
  ⟨(mediaDownloadProcess_idempotent (fun l => l) (fun _ => [7])
      (fun _ => some [7])
      { timestamp := 1, extension := ".png", size := 1, md5 := [7],
        board := "g", poster_stem := "x" } "t").1 [7] rfl rfl,
    ((mediaDownloadProcess_idempotent (fun l => l) (fun _ => [7])
        (fun _ => none)
        { timestamp := 1, extension := ".png", size := 1, md5 := [7],
          board := "g", poster_stem := "x" } "t").2 (Or.inl rfl)).1⟩

/-- When the capacity check passes, `complete` runs the done-phase loop
and then, only if no done task raised, the cancellation and gather
phase. -/
theorem complete_not_config (queue_maxsize : Int) (initial_count : Nat)
    (worker_count : Int) (done : List TaskRes) (pending : Nat)
    (errs : List String)
    (hc : ¬(0 < queue_maxsize ∧ queue_maxsize < (initial_count : Int))) :
    complete queue_maxsize initial_count worker_count done pending errs =
      match (runDonePhase done).2 with
      | some e =>
          { config_error := none
            callbacks := (runDonePhase done).1
            raised := some e
            cancelled_awaited := 0 }
      | none =>
          { config_error := none
            callbacks := (runDonePhase done).1
            raised := none
            cancelled_awaited := pending } := by
  rw [complete, if_neg hc]

/-- C4 (amended): the only configuration check `complete` performs before
spawning any task is the capacity check — it fails fast exactly when
`0 < queue_maxsize <` the number of initial items — and a configuration
error is never surfaced through the race (no callback and no task
exception accompany it); `worker_count` is not validated at all: the
observable behaviour is identical for any two worker counts, so
`worker_count < 1` is accepted rather than rejected. -/
theorem complete_config_validation (queue_maxsize : Int) (initial_count : Nat)
    (worker_count worker_count' : Int) (done : List TaskRes) (pending : Nat)
    (errs : List String) :
    ((complete queue_maxsize initial_count worker_count done pending
        errs).config_error.isSome ↔
      0 < queue_maxsize ∧ queue_maxsize < (initial_count : Int)) ∧
    complete queue_maxsize initial_count worker_count done pending errs =
      complete queue_maxsize initial_count worker_count' done pending errs ∧
    ((complete queue_maxsize initial_count worker_count done pending
        errs).config_error.isSome →
      (complete queue_maxsize initial_count worker_count done pending
        errs).callbacks = [] ∧
      (complete queue_maxsize initial_count worker_count done pending
        errs).raised = none) := by
  by_cases hc : 0 < queue_maxsize ∧ queue_maxsize < (initial_count : Int)
  · simp [complete, hc]
  · rw [complete_not_config queue_maxsize initial_count worker_count done
      pending errs hc,
      complete_not_config queue_maxsize initial_count worker_count' done
      pending errs hc]
    cases h2 : (runDonePhase done).2 <;> simp [h2, hc]

/-- C4 witness: a run with `queue_maxsize = 1` and two initial items is
rejected, and the rejection carries no callback and no raised task
error. -/
theorem complete_config_validation_witness :
    ((complete 1 2 3 [] 0 []).config_error.isSome ↔
      (0 : Int) < 1 ∧ (1 : Int) < (2 : Nat)) ∧
    ((complete 1 2 3 [] 0 []).callbacks = [] ∧
      (complete 1 2 3 [] 0 []).raised = none) :=
  ⟨(complete_config_validation 1 2 3 5 [] 0 []).1,
    (complete_config_validation 1 2 3 5 [] 0 []).2.2 (by decide)⟩

/-- C4 counterexample: `worker_count = 0` is accepted: `complete` raises
no configuration error and proceeds to the race, contrary to the claimed
fail-fast on `worker_count < 1`. -/
theorem complete_worker_count_not_validated :
    (complete 10 1 0 [joinerResult] 0 []).config_error = none := rfl

/-- C1 (amended): `complete` signals outcomes through the
`stop_reason_callback` and through exception propagation: each done task's
non-`None` stop reason triggers one callback call and the first done
task's stored exception propagates.  When exactly one task finishes the
race, the caller observes exactly one completion signal — either one
callback and no exception, or no callback and one propagated exception.
The drained case is delivered through the same callback channel as a
worker stop, as the joiner's fixed reason "All items processed",
distinguishable from a worker stop only by that string. -/
theorem complete_single_outcome (queue_maxsize : Int) (initial_count : Nat)
    (worker_count : Int) (r : TaskRes) (pending : Nat) (errs : List String)
    (hcfg : ¬(0 < queue_maxsize ∧ queue_maxsize < (initial_count : Int)))
    (hr : r ≠ .ok none) :
    (((∃ sr, (complete queue_maxsize initial_count worker_count [r] pending
          errs).callbacks = [sr]) ∧
        (complete queue_maxsize initial_count worker_count [r] pending
          errs).raised = none) ∨
      ((complete queue_maxsize initial_count worker_count [r] pending
          errs).callbacks = [] ∧
        (∃ e, (complete queue_maxsize initial_count worker_count [r] pending
          errs).raised = some e))) ∧
    (complete queue_maxsize initial_count worker_count [joinerResult] pending
        errs).callbacks = [{ reason := "All items processed" }] := by
  constructor
  · match r with
    | .ok none => exact absurd rfl hr
    | .ok (some sr) =>
      rw [complete_not_config queue_maxsize initial_count worker_count _
        pending errs hcfg]
      simp [runDonePhase]
    | .exc e =>
      rw [complete_not_config queue_maxsize initial_count worker_count _
        pending errs hcfg]
      simp [runDonePhase]
  · rw [complete_not_config queue_maxsize initial_count worker_count _
      pending errs hcfg]
    simp [runDonePhase, joinerResult]

/-- C1 witness: a drained race with one finished task yields exactly the
joiner's callback. -/
theorem complete_single_outcome_witness :
    (((∃ sr, (complete 0 1 3 [joinerResult] 2 []).callbacks = [sr]) ∧
        (complete 0 1 3 [joinerResult] 2 []).raised = none) ∨
      ((complete 0 1 3 [joinerResult] 2 []).callbacks = [] ∧
        (∃ e, (complete 0 1 3 [joinerResult] 2 []).raised = some e))) ∧
    (complete 0 1 3 [joinerResult] 2 []).callbacks =
      [{ reason := "All items processed" }] :=
  complete_single_outcome 0 1 3 joinerResult 2 [] (by decide) (by decide)

/-- C1 counterexample: when two tasks finish the race in the same event
loop iteration (both in the `done` set), each of their stop reasons is
passed to the callback: the caller observes two completion signals in one
run, not exactly one. -/
theorem complete_two_outcomes :
    (complete 0 1 3
        [TaskRes.ok (some { reason := "a" }), TaskRes.ok (some { reason := "b" })]
        0 []).callbacks = [{ reason := "a" }, { reason := "b" }] ∧
    (complete 0 1 3
        [TaskRes.ok (some { reason := "a" }), TaskRes.ok (some { reason := "b" })]
        0 []).raised = none := ⟨rfl, rfl⟩

/-- C7 (amended): only when no done task raised does `complete` cancel and
await every pending task, with `gather(return_exceptions=True)` collecting
and discarding all shutdown-phase errors, which therefore never override
the decided outcome; but when a done task raised, `task.result()`
re-raises it before the cancellation loop, so the pending tasks are
neither cancelled nor awaited. -/
theorem complete_shutdown_phase (queue_maxsize : Int) (initial_count : Nat)
    (worker_count : Int) (done : List TaskRes) (pending : Nat)
    (errs errs' : List String)
    (hcfg : ¬(0 < queue_maxsize ∧ queue_maxsize < (initial_count : Int))) :
    ((runDonePhase done).2 = none →
      (complete queue_maxsize initial_count worker_count done pending
        errs).cancelled_awaited = pending ∧
      (complete queue_maxsize initial_count worker_count done pending
        errs).raised = none ∧
      complete queue_maxsize initial_count worker_count done pending errs =
        complete queue_maxsize initial_count worker_count done pending errs') ∧
    (∀ e, (runDonePhase done).2 = some e →
      (complete queue_maxsize initial_count worker_count done pending
        errs).raised = some e ∧
      (complete queue_maxsize initial_count worker_count done pending
        errs).cancelled_awaited = 0) := by
  rw [complete_not_config queue_maxsize initial_count worker_count done
    pending errs hcfg,
    complete_not_config queue_maxsize initial_count worker_count done
    pending errs' hcfg]
  cases h2 : (runDonePhase done).2 <;> simp [h2]

/-- C7 witness: a drained race cancels and awaits both pending tasks and
discards a late shutdown error; a failed race cancels none. -/
theorem complete_shutdown_phase_witness :
    ((complete 0 1 3 [joinerResult] 2 ["late"]).cancelled_awaited = 2 ∧
      (complete 0 1 3 [joinerResult] 2 ["late"]).raised = none ∧
      complete 0 1 3 [joinerResult] 2 ["late"] =
        complete 0 1 3 [joinerResult] 2 []) ∧
    ((complete 0 1 3 [TaskRes.exc "crash"] 2 []).raised = some "crash" ∧
      (complete 0 1 3 [TaskRes.exc "crash"] 2 []).cancelled_awaited = 0) :=
  ⟨(complete_shutdown_phase 0 1 3 [joinerResult] 2 ["late"] [] (by decide)).1
      rfl,
    (complete_shutdown_phase 0 1 3 [TaskRes.exc "crash"] 2 [] []
      (by decide)).2 "crash" rfl⟩

/-- C7 counterexample: when the first-completed task holds an exception,
`complete` re-raises it from `task.result()` before reaching the
cancellation loop: the two still-pending tasks are neither cancelled nor
awaited. -/
theorem complete_failed_skips_cancellation :
    (complete 0 1 3 [TaskRes.exc "boom"] 2 []).cancelled_awaited = 0 ∧
    (complete 0 1 3 [TaskRes.exc "boom"] 2 []).raised = some "boom" :=
  ⟨rfl, rfl⟩

end Fourget
